import Mathlib

/-!
Verification of the request-authorization + upstream-relay + TTL-cache pipeline
of `server.py` (an authenticated Flask proxy in front of a market-data API and
a text-generation API).

The Python source is shallowly embedded: JSON values become an inductive type
(JSON numbers are modelled as integers; no claim touches numeric payloads),
Python dicts become association lists with replace-or-append update, the
process clock (`time.time()`) becomes an explicit rational-valued `now`
argument, and the two outbound HTTP collaborators become explicit oracle
arguments mapping the fully built outbound request to its outcome.
-/

/-- JSON values, as produced by `request`/`jsonify`.  Numbers are modelled as
integers (no claim depends on numeric payload contents). -/
inductive Json where
  | null : Json
  | bool : Bool → Json
  | num : Int → Json
  | str : String → Json
  | arr : List Json → Json
  | obj : List (String × Json) → Json

/-- Python truthiness of a JSON value (`if cached:`, `... or {}`). -/
def jsonTruthy : Json → Bool
  | .null => false
  | .bool b => b
  | .num n => n != 0
  | .str s => s != ""
  | .arr l => !l.isEmpty
  | .obj l => !l.isEmpty

/-- Lookup in an association list representing a Python dict (first match;
dicts never hold duplicate keys). -/
def alookup {α : Type} : List (String × α) → String → Option α
  | [], _ => none
  | (k, v) :: t, key => if k = key then some v else alookup t key

/-- Python `d.get(key)` on a JSON value: `none` when the key is absent.  On a
non-object Python raises `AttributeError`; every use site below either sits in
a `try/except` that swallows the exception (modelled by the `none` result) or
is guarded by an explicit match on the object constructor. -/
def jget (j : Json) (key : String) : Option Json :=
  match j with
  | .obj l => alookup l key
  | _ => none

/-- Python dict assignment `d[k] = v`: replace the value of an existing key in
place, else append the new binding. -/
def dset {α : Type} (l : List (String × α)) (k : String) (v : α) : List (String × α) :=
  if (alookup l k).isSome then l.map (fun p => if p.1 = k then (k, v) else p)
  else l ++ [(k, v)]

/-- Python `d.pop(k, None)`: remove the binding of `k` (dicts hold each key at
most once, so removing every occurrence from the representing list agrees). -/
def apop {α : Type} (l : List (String × α)) (k : String) : List (String × α) :=
  l.filter (fun p => p.1 != k)

/-- Characters stripped by Python `str.strip()` (the ASCII whitespace subset:
space, tab, LF, VT, FF, CR). -/
def isWsChar (c : Char) : Bool := decide (c.toNat = 32 ∨ (9 ≤ c.toNat ∧ c.toNat ≤ 13))

/-- List-level `str.strip()`: drop whitespace from both ends. -/
def stripList (l : List Char) : List Char :=
  ((l.dropWhile isWsChar).reverse.dropWhile isWsChar).reverse

/-- Python `str.strip()`. -/
def pyStrip (s : String) : String := ⟨stripList s.data⟩

/-- ASCII lower-casing of one character (Python `str.lower()` on the
identifiers handled here). -/
def lowerChar (c : Char) : Char :=
  if 65 ≤ c.toNat ∧ c.toNat ≤ 90 then Char.ofNat (c.toNat + 32) else c

/-- ASCII upper-casing of one character (Python `str.upper()`). -/
def upperChar (c : Char) : Char :=
  if 97 ≤ c.toNat ∧ c.toNat ≤ 122 then Char.ofNat (c.toNat - 32) else c

/-- Python `str.lower()`. -/
def pyLower (s : String) : String := ⟨s.data.map lowerChar⟩

/-- Python `str.upper()`. -/
def pyUpper (s : String) : String := ⟨s.data.map upperChar⟩

/-- Two strings differ only by letter case and surrounding whitespace. -/
def caseWsEquiv (s t : String) : Prop :=
  ∃ a u b a2 u2 b2 : List Char,
    (∀ c ∈ a, isWsChar c = true) ∧ (∀ c ∈ b, isWsChar c = true) ∧
    (∀ c ∈ a2, isWsChar c = true) ∧ (∀ c ∈ b2, isWsChar c = true) ∧
    u.map lowerChar = u2.map lowerChar ∧
    s.data = a ++ u ++ b ∧ t.data = a2 ++ u2 ++ b2

/-- Python truthiness of an optional string (`not sent`): false for `None` and
for the empty string. -/
def strTruthy : Option String → Bool
  | none => false
  | some s => s != ""

/-- The inbound request surface read by the handlers: the two credential
locations (`?api_key=`, `Authorization` header) and the two relayed query
parameters (`e`, `market_pair`). -/
structure Request where
  api_key : Option String
  authorization : Option String
  e : Option String
  market_pair : Option String

/-- Python `auth.startswith("Bearer ")`, on the character level. -/
def bearerPrefixed (auth : String) : Bool :=
  "Bearer ".data.isPrefixOf auth.data

/-- Embeds `require_api_key` from `server.py`: check the inbound credential against
the process-wide expected value (`EXPECTED_API_KEY`, passed here explicitly).
Returns `none` on success and `some (error_message, http_status)` on failure,
exactly the `_auth_fail` envelopes of the source.  `auth.replace("Bearer ",
"", 1)` under the `startswith` guard removes the 7-character scheme prefix. -/
def require_api_key (expected : Option String) (req : Request) : Option (String × Nat) :=
  if !strTruthy expected then some ("server_missing_api_key_env", 500)
  else
    let sent0 := req.api_key
    let sent : Option String :=
      if !strTruthy sent0 then
        let auth := (req.authorization).getD ""
        if bearerPrefixed auth then some ⟨auth.data.drop 7⟩ else sent0
      else sent0
    if !strTruthy sent then some ("api_key is missing", 401)
    else if sent ≠ expected then some ("api_key is missing or invalid", 401)
    else none

/-- Constant `CACHE_TTL_SECONDS = 30` from `server.py`.  Timestamps (`time.time()`
float seconds) are modelled as exact rationals. -/
def CACHE_TTL_SECONDS : ℚ := 30

/-- The module-level `_cache` dict: key to (stored_at, data). -/
def Cache : Type := List (String × (ℚ × Json))

/-- Embeds `cache_get` from `server.py`: expire-on-read TTL lookup.  The result pairs
the returned value with the (possibly mutated) cache.  A present dict value is
a 2-tuple and hence always truthy, so `if not v` is a `None` test. -/
def cache_get (c : Cache) (now : ℚ) (key : String) : Option Json × Cache :=
  match alookup c key with
  | none => (none, c)
  | some (ts, data) =>
    if now - ts > CACHE_TTL_SECONDS then (none, apop c key)
    else (some data, c)

/-- Embeds `cache_put` from `server.py`: unconditional overwrite with the current
timestamp. -/
def cache_put (c : Cache) (now : ℚ) (key : String) (data : Json) : Cache :=
  dset c key (now, data)

/-- The upstream (CryptoMeter) configuration read from the environment:
`UPSTREAM_BASE_URL`, `UPSTREAM_API_KEY`, `UPSTREAM_API_KEY_NAME`,
`UPSTREAM_AUTH_MODE`. -/
structure UpConfig where
  baseUrl : String
  key : String
  keyName : String
  authMode : String

/-- List-level `str.lstrip("/")`. -/
def lstripSlash (s : String) : String := ⟨s.data.dropWhile (· == '/')⟩

/-- List-level `str.rstrip("/")`. -/
def rstripSlash (s : String) : String := ⟨(s.data.reverse.dropWhile (· == '/')).reverse⟩

/-- The target URL built by `upstream_get`:
`f"{UP_BASE.rstrip('/')}/{path.lstrip('/')}"`. -/
def joinUrl (base path : String) : String :=
  rstripSlash base ++ "/" ++ lstripSlash path

/-- The outbound HTTP request handed to `requests.get`: target URL, query
parameters and headers. -/
structure OutReq where
  url : String
  query : List (String × String)
  headers : List (String × String)
deriving DecidableEq

/-- Outcome of the one `requests.get` call: a 2xx response with a JSON body,
an HTTP error raised by `raise_for_status` (carrying `e.response.status_code`
when a response object exists), or any other exception (timeout, DNS,
connection refused; a 2xx body that fails JSON decoding lands here too, since
the generic `except` catches it). -/
inductive NetResult where
  | ok (body : Json)
  | httpError (code : Option Nat)
  | netFail

/-- The query/header construction of `upstream_get`: copy the caller params
(`q = dict(params)`), then either set the bearer header or assign the
credential under the configured parameter name (`q[UP_KEYNAM] = UP_KEY`). -/
def upstream_outreq (cfg : UpConfig) (path : String) (params : List (String × String)) : OutReq :=
  if pyLower cfg.authMode = "bearer" then
    { url := joinUrl cfg.baseUrl path
      query := params
      headers := [("Authorization", "Bearer " ++ cfg.key)] }
  else
    { url := joinUrl cfg.baseUrl path
      query := dset params cfg.keyName cfg.key
      headers := [] }

/-- What `upstream_get` hands back to its caller at the Python level: either a
bare Flask `Response` (status 200, from `jsonify(r.json())`) or a
`(Response, status)` tuple (every failure envelope). The distinction is
observable: `.get_json` on the tuple raises `AttributeError`. -/
inductive UpRet where
  | resp (body : Json)
  | tup (body : Json) (code : Nat)

/-- The uniform failure envelope `{"success": "false", "error": msg}`. -/
def errJson (msg : String) : Json :=
  Json.obj [("success", Json.str "false"), ("error", Json.str msg)]

/-- Embeds `upstream_get` from `server.py`: fail fast when no upstream credential is
configured, build the outbound request, issue it once through the network
oracle, and translate failures.  The second component counts how many network
attempts were made. -/
def upstream_get (cfg : UpConfig) (net : OutReq → NetResult) (path : String)
    (params : List (String × String)) : UpRet × Nat :=
  if cfg.key = "" then (.tup (errJson "upstream_key_missing") 500, 0)
  else
    match net (upstream_outreq cfg path params) with
    | .ok body => (.resp body, 1)
    | .httpError code => (.tup (errJson ("upstream_http_" ++ toString (code.getD 502))) 502, 1)
    | .netFail => (.tup (errJson "upstream_unreachable") 502, 1)

/-- Flask-level response: JSON body plus HTTP status. -/
def Resp : Type := Json × Nat

/-- Sending an `upstream_get` result to the client: a bare `Response` carries
status 200, a tuple carries its explicit status. -/
def upretToResp : UpRet → Resp
  | .resp body => (body, 200)
  | .tup body code => (body, code)

/-- Handler-visible mutable state: the module cache plus an instrumentation
counter of upstream network attempts. -/
structure St where
  cache : Cache
  upCalls : Nat

/-- Embeds `get_coinlist` from `server.py` (`GET /coinlist/`): auth check, normalize
`e` (`strip().lower()`), consult the cache under `"coinlist:" + e` (a cached
value is served only when truthy), otherwise relay and store the body when it
is a dict whose `success` field is the string `"true"`.  On a failure tuple,
`resp.get_json` raises inside the `try` and the `except: pass` swallows it,
so nothing is stored. -/
def get_coinlist (expected : Option String) (req : Request) (cfg : UpConfig)
    (net : OutReq → NetResult) (now : ℚ) (st : St) : Resp × St :=
  match require_api_key expected req with
  | some (msg, code) => ((errJson msg, code), st)
  | none =>
    let e := pyLower (pyStrip ((req.e).getD ""))
    if e = "" then ((errJson "param_e_missing", 400), st)
    else
      let cacheKey := "coinlist:" ++ e
      let looked := cache_get st.cache now cacheKey
      let hit : Option Json :=
        match looked.1 with
        | some cached => if jsonTruthy cached then some cached else none
        | none => none
      match hit with
      | some cached => ((cached, 200), { st with cache := looked.2 })
      | none =>
        let (upret, n) := upstream_get cfg net "/coinlist/" [("e", e)]
        let cache2 :=
          match upret with
          | .resp body =>
            let data := if jsonTruthy body then body else Json.obj []
            match jget data "success" with
            | some (.str s) => if s = "true" then cache_put looked.2 now cacheKey data else looked.2
            | _ => looked.2
          | .tup _ _ => looked.2
        (upretToResp upret, { cache := cache2, upCalls := st.upCalls + n })

/-- Embeds `get_ticker` from `server.py` (`GET /ticker/`): auth check, normalize
`e` (`strip().lower()`) and `market_pair` (`strip().upper()`), validate both,
then relay uncached. -/
def get_ticker (expected : Option String) (req : Request) (cfg : UpConfig)
    (net : OutReq → NetResult) : Resp :=
  match require_api_key expected req with
  | some (msg, code) => (errJson msg, code)
  | none =>
    let e := pyLower (pyStrip ((req.e).getD ""))
    let mp := pyUpper (pyStrip ((req.market_pair).getD ""))
    if e = "" then (errJson "param_e_missing", 400)
    else if mp = "" then (errJson "market_pair is missing", 400)
    else upretToResp (upstream_get cfg net "/ticker/" [("e", e), ("market_pair", mp)]).1

/-- The OpenAI configuration: `OPENAI_API_KEY`, `OPENAI_MODEL`,
`OPENAI_BASE_URL`. -/
structure OaiCfg where
  key : String
  model : String
  baseUrl : String

/-- Outcome of the one `requests.post` to the text-generation API, analogous
to `NetResult`. -/
inductive AiNet where
  | ok (body : Json)
  | httpError (code : Option Nat)
  | netFail

/-- The dict returned by `openai_complete`: `{"ok": True, "text": ..,
"raw": ..}` or `{"ok": False, "error": ..}` (`err = none` on success since the
success dict has no `error` key). -/
structure OaiResult where
  ok : Bool
  text : String
  err : Option String
  raw : Json

/-- The content extraction
`j.get("choices", [{}])[0].get("message", {}).get("content", "").strip()`
inside the `try` of `openai_complete`: `none` models any exception raised on
the way (indexing `[0]` of an empty or non-list value, `.get` on a non-dict,
`.strip` on a non-string), which the generic `except` turns into
`openai_unreachable`. -/
def extractContent (j : Json) : Option String :=
  match j with
  | .obj _ =>
    match (jget j "choices").getD (.arr [.obj []]) with
    | .arr (c :: _) =>
      match c with
      | .obj _ =>
        match (jget c "message").getD (.obj []) with
        | .obj ml =>
          match (alookup ml "content").getD (.str "") with
          | .str s => some (pyStrip s)
          | _ => none
        | _ => none
      | _ => none
    | _ => none
  | _ => none

/-- Embeds `openai_complete` from `server.py`: fail fast without a configured key
(no network attempt), otherwise post once and translate failures.  The
request-body construction (model name, message list, temperature) is absorbed
into the oracle, which answers for the single outbound post of this call.
The second component counts network attempts. -/
def openai_complete (cfgO : OaiCfg) (aiNet : AiNet) : OaiResult × Nat :=
  if cfgO.key = "" then (⟨false, "", some "openai_key_missing", .null⟩, 0)
  else
    match aiNet with
    | .ok j =>
      match extractContent j with
      | some t => (⟨true, t, none, j⟩, 1)
      | none => (⟨false, "", some "openai_unreachable", .null⟩, 1)
    | .httpError code => (⟨false, "", some ("openai_http_" ++ toString (code.getD 502)), .null⟩, 1)
    | .netFail => (⟨false, "", some "openai_unreachable", .null⟩, 1)

/-- Python `str(x)` of a JSON value interpolated into the prompt f-string.
Scalars are rendered as Python renders them; container rendering (Python
`repr`) is approximated, and no claim depends on the prompt text. -/
def pyStr : Json → String
  | .null => "None"
  | .bool true => "True"
  | .bool false => "False"
  | .num n => toString n
  | .str s => s
  | .arr _ => "[...]"
  | .obj _ => "\x7b...\x7d"

/-- Python `snap.get(field)` rendered in the f-string: a missing key interpolates as
`None`. -/
def pyStrOpt : Option Json → String
  | none => "None"
  | some j => pyStr j

/-- How `analyze_pair` ends at the Python level: a returned Flask response, or
an unhandled exception escaping the handler (Flask then produces its generic
500, not one of the uniform JSON envelopes). -/
inductive AnalyzeOut where
  | ok (r : Json × Nat)
  | crash

/-- Embeds `analyze_pair` from `server.py` (`GET /analyze/`): auth check, parameter
normalization and validation, a first relay call to `/ticker/`, then on
success a second call to the text-generation API.  The Boolean records
whether `openai_complete` was invoked.  Crash points, all outside any
`try`: `up_resp.get_json` on the failure tuple returned by `upstream_get`
(`AttributeError`), `up_json.get` on a truthy non-dict body, `rows[0]` on a
truthy non-list `data`, and `snap.get` on a non-dict first row. -/
def analyze_pair (expected : Option String) (req : Request) (cfg : UpConfig)
    (net : OutReq → NetResult) (cfgO : OaiCfg) (aiNet : AiNet) : AnalyzeOut × Bool :=
  match require_api_key expected req with
  | some (msg, code) => (.ok (errJson msg, code), false)
  | none =>
    let e := pyLower (pyStrip ((req.e).getD ""))
    let mp := pyUpper (pyStrip ((req.market_pair).getD ""))
    if e = "" then (.ok (errJson "param_e_missing", 400), false)
    else if mp = "" then (.ok (errJson "market_pair is missing", 400), false)
    else
      match (upstream_get cfg net "/ticker/" [("e", e), ("market_pair", mp)]).1 with
      | .tup _ _ => (.crash, false)
      | .resp body =>
        let up_json := if jsonTruthy body then body else Json.obj []
        match up_json with
        | .obj ul =>
          let succOk : Bool :=
            match alookup ul "success" with
            | some (.str s) => s == "true"
            | _ => false
          if succOk = false then
            (.ok (Json.obj [("success", .str "false"), ("error", .str "upstream_failed"),
              ("upstream", .obj ul)], 502), false)
          else
            let rows := (alookup ul "data").getD .null
            let snapOpt : Option Json :=
              match (if jsonTruthy rows then rows else .arr []) with
              | .arr [] => some (.obj [])
              | .arr (x :: _) => match x with | .obj _ => some x | _ => none
              | _ => none
            match snapOpt with
            | none => (.crash, false)
            | some snap =>
              let prompt :=
                "Donne une lecture rapide du marché pour " ++ mp ++ " sur " ++ e ++ ".\n" ++
                "Dernier: " ++ pyStrOpt (jget snap "last") ++
                ", Haut24h: " ++ pyStrOpt (jget snap "high") ++
                ", Bas24h: " ++ pyStrOpt (jget snap "low") ++
                ", Var1h: " ++ pyStrOpt (jget snap "change_1h") ++
                "%, Var24h: " ++ pyStrOpt (jget snap "change_24h") ++
                "%, Var7j: " ++ pyStrOpt (jget snap "change_7days") ++
                "%, Volume24h: " ++ pyStrOpt (jget snap "volume_24") ++ ".\n" ++
                "Structure en puces: tendance, niveaux clés, momentum, volume, risque, plan d\u2019action prudent."
              let _ := prompt
              let (ai, _) := openai_complete cfgO aiNet
              if ai.ok = false then
                (.ok (Json.obj [("success", .str "false"),
                  ("error", match ai.err with | some m => .str m | none => .null),
                  ("data", snap)], 502), true)
              else
                (.ok (Json.obj [("success", .str "true"), ("error", .str "false"),
                  ("pair", .str mp), ("exchange", .str e),
                  ("analysis", .str ai.text), ("data", snap)], 200), true)
        | _ => (.crash, false)

theorem alookup_apop {α : Type} (l : List (String × α)) (k : String) :
    alookup (apop l k) k = none := by
  induction l with
  | nil => rfl
  | cons p t ih =>
    rcases p with ⟨k1, v⟩
    by_cases h : k1 = k
    · simpa [apop, List.filter_cons, h] using ih
    · simpa [apop, List.filter_cons, h, alookup] using ih

/-- C2: `cache_get` never serves an entry older than the TTL: a missing key returns None
and leaves the cache alone; an entry strictly older than the TTL is deleted and None is
returned; a fresh entry is returned unchanged; and any value returned was stored within
the TTL. -/
theorem cache_get_ttl_expiry (c : Cache) (now : ℚ) (key : String) :
    (alookup c key = none → cache_get c now key = (none, c)) ∧
    (∀ ts d, alookup c key = some (ts, d) → now - ts > CACHE_TTL_SECONDS →
      cache_get c now key = (none, apop c key) ∧ alookup (apop c key) key = none) ∧
    (∀ ts d, alookup c key = some (ts, d) → ¬(now - ts > CACHE_TTL_SECONDS) →
      cache_get c now key = (some d, c)) ∧
    (∀ d cafter, cache_get c now key = (some d, cafter) →
      cafter = c ∧ ∃ ts, alookup c key = some (ts, d) ∧ now - ts ≤ CACHE_TTL_SECONDS) := by
  refine ⟨?_, ?_, ?_, ?_⟩
  · intro h; simp [cache_get, h]
  · intro ts d h hexp
    refine ⟨by simp [cache_get, h, hexp], alookup_apop c key⟩
  · intro ts d h hexp
    simp [cache_get, h, hexp]
  · intro d cafter h
    rcases hl : alookup c key with _ | ⟨ts, data⟩ <;> rw [cache_get, hl] at h
    · simp at h
    · by_cases hexp : now - ts > CACHE_TTL_SECONDS
      · simp [hexp] at h
      · simp [hexp] at h
        exact ⟨h.2.symm, ts, by rw [h.1], le_of_not_lt hexp⟩

/-- Witness for C2: a 40-second-old entry under a 30-second TTL is expired on read. -/
theorem cache_get_ttl_expiry_witness :
    alookup ([("k", ((0 : ℚ), Json.str "v"))] : Cache) "k" = some (0, Json.str "v") ∧
    (40 : ℚ) - 0 > CACHE_TTL_SECONDS ∧
    cache_get [("k", ((0 : ℚ), Json.str "v"))] 40 "k" =
      (none, apop [("k", ((0 : ℚ), Json.str "v"))] "k") := by
  refine ⟨rfl, by norm_num [CACHE_TTL_SECONDS], ?_⟩
  exact ((cache_get_ttl_expiry [("k", ((0 : ℚ), Json.str "v"))] 40 "k").2.1 0 (Json.str "v") rfl
    (by norm_num [CACHE_TTL_SECONDS])).1

theorem rstripSlash_append_slash (base : String) :
    rstripSlash (base ++ "/") = rstripSlash base := by
  unfold rstripSlash
  apply congrArg String.mk
  rw [String.data_append]
  rw [show ("/" : String).data = ['/'] from rfl]
  rw [List.reverse_append]
  simp

theorem lstripSlash_slash_append (path : String) :
    lstripSlash ("/" ++ path) = lstripSlash path := by
  unfold lstripSlash
  apply congrArg String.mk
  rw [String.data_append]
  rw [show ("/" : String).data = ['/'] from rfl]
  simp

/-- C8: the relay target URL is the configured base joined to the logical path with
exactly one separating slash: the right-stripped base never ends in a slash, the
left-stripped path never starts with one, and the join is invariant under a trailing
slash on the base or a leading slash on the path; `upstream_outreq` uses exactly this
join. -/
theorem joinUrl_single_separating_slash (base path : String) :
    joinUrl base path = rstripSlash base ++ "/" ++ lstripSlash path ∧
    (rstripSlash base).data.getLast? ≠ some '/' ∧
    (lstripSlash path).data.head? ≠ some '/' ∧
    joinUrl (base ++ "/") path = joinUrl base path ∧
    joinUrl base ("/" ++ path) = joinUrl base path ∧
    ∀ key keyName authMode params,
      (upstream_outreq ⟨base, key, keyName, authMode⟩ path params).url = joinUrl base path := by
  refine ⟨rfl, ?_, ?_, ?_, ?_, ?_⟩
  · intro h
    have h2 := List.head?_dropWhile_not (· == '/') base.data.reverse
    rw [rstripSlash] at h
    simp only [List.getLast?_reverse] at h
    rw [h] at h2
    simp at h2
  · intro h
    have h2 := List.head?_dropWhile_not (· == '/') path.data
    rw [lstripSlash] at h
    simp only at h
    rw [h] at h2
    simp at h2
  · rw [joinUrl, joinUrl, rstripSlash_append_slash]
  · rw [joinUrl, joinUrl, lstripSlash_slash_append]
  · intro key keyName authMode params
    rw [upstream_outreq]
    split <;> rfl

/-- Witness for C8 at concrete slash-laden inputs. -/
theorem joinUrl_single_separating_slash_witness :
    (rstripSlash "https://api.cryptometer.io/").data.getLast? ≠ some '/' ∧
    (lstripSlash "/coinlist/").data.head? ≠ some '/' ∧
    joinUrl ("https://api.cryptometer.io" ++ "/") "/coinlist/" =
      joinUrl "https://api.cryptometer.io" "/coinlist/" :=
  ⟨(joinUrl_single_separating_slash "https://api.cryptometer.io/" "x").2.1,
   (joinUrl_single_separating_slash "x" "/coinlist/").2.2.1,
   (joinUrl_single_separating_slash "https://api.cryptometer.io" "/coinlist/").2.2.2.1⟩

theorem alookup_nil {α : Type} (key : String) : alookup ([] : List (String × α)) key = none := rfl

theorem alookup_cons {α : Type} (k1 : String) (v1 : α) (t : List (String × α)) (key : String) :
    alookup ((k1, v1) :: t) key = if k1 = key then some v1 else alookup t key := rfl

theorem alookup_map_set {α : Type} (l : List (String × α)) (k : String) (v : α)
    (hs : (alookup l k).isSome) :
    alookup (l.map (fun p => if p.1 = k then (k, v) else p)) k = some v := by
  induction l with
  | nil => simp [alookup_nil] at hs
  | cons p t ih =>
    rcases p with ⟨k1, v1⟩
    by_cases h : k1 = k
    · subst h
      simp [alookup_cons]
    · rw [alookup_cons, if_neg h] at hs
      simp only [List.map_cons]
      rw [if_neg (show ¬((k1, v1).1 = k) from h)]
      rw [alookup_cons, if_neg h]
      exact ih hs

theorem alookup_append_single {α : Type} (l : List (String × α)) (k : String) (v : α)
    (hn : alookup l k = none) :
    alookup (l ++ [(k, v)]) k = some v := by
  induction l with
  | nil => simp [alookup_cons]
  | cons p t ih =>
    rcases p with ⟨k1, v1⟩
    by_cases h : k1 = k
    · rw [alookup_cons, if_pos h] at hn; simp at hn
    · rw [alookup_cons, if_neg h] at hn
      rw [List.cons_append, alookup_cons, if_neg h]
      exact ih hn

theorem alookup_dset_self {α : Type} (l : List (String × α)) (k : String) (v : α) :
    alookup (dset l k v) k = some v := by
  rw [dset]
  by_cases hs : (alookup l k).isSome
  · rw [if_pos hs]; exact alookup_map_set l k v hs
  · rw [if_neg hs]
    exact alookup_append_single l k v (by rwa [Option.not_isSome_iff_eq_none] at hs)

theorem alookup_dset_other {α : Type} (l : List (String × α)) (k k2 : String) (v : α)
    (h : k2 ≠ k) :
    alookup (dset l k v) k2 = alookup l k2 := by
  rw [dset]
  by_cases hs : (alookup l k).isSome
  · rw [if_pos hs]
    clear hs
    induction l with
    | nil => rfl
    | cons p t ih =>
      rcases p with ⟨k1, v1⟩
      by_cases h1 : k1 = k
      · subst h1
        simp only [List.map_cons, if_pos (show (k1, v1).1 = k1 from rfl)]
        rw [alookup_cons, alookup_cons, if_neg (fun hh => h hh.symm),
          if_neg (fun hh => h hh.symm)]
        exact ih
      · simp only [List.map_cons]
        rw [if_neg (show ¬((k1, v1).1 = k) from h1)]
        rw [alookup_cons, alookup_cons]
        by_cases h2 : k1 = k2
        · rw [if_pos h2, if_pos h2]
        · rw [if_neg h2, if_neg h2]
          exact ih
  · rw [if_neg hs]
    induction l with
    | nil =>
      simp only [List.nil_append]
      rw [alookup_cons, if_neg (fun hh => h hh.symm)]
    | cons p t ih =>
      rcases p with ⟨k1, v1⟩
      rw [List.cons_append, alookup_cons, alookup_cons]
      by_cases h2 : k1 = k2
      · rw [if_pos h2, if_pos h2]
      · rw [if_neg h2, if_neg h2]
        apply ih
        rw [alookup_cons] at hs
        by_cases h1 : k1 = k
        · rw [if_pos h1] at hs; simp at hs
        · rwa [if_neg h1] at hs

/-- C4: the relay translates an upstream HTTP error response into a 502 envelope whose
reason embeds the upstream status code, and a network-level failure into a 502 envelope
with the distinct unreachable reason; the unreachable reason differs from every HTTP
reason, and the relay makes at most one network attempt (the embedding is total, so no
fault escapes it). -/
theorem upstream_get_error_mapping (cfg : UpConfig) (net : OutReq → NetResult) (path : String)
    (params : List (String × String)) (hkey : cfg.key ≠ "") :
    (∀ c, net (upstream_outreq cfg path params) = .httpError (some c) →
      upstream_get cfg net path params =
        (.tup (errJson ("upstream_http_" ++ toString c)) 502, 1)) ∧
    (net (upstream_outreq cfg path params) = .netFail →
      upstream_get cfg net path params = (.tup (errJson "upstream_unreachable") 502, 1)) ∧
    (∀ c : Nat, errJson "upstream_unreachable" ≠ errJson ("upstream_http_" ++ toString c)) ∧
    (upstream_get cfg net path params).2 ≤ 1 := by
  refine ⟨?_, ?_, ?_, ?_⟩
  · intro c h; simp [upstream_get, hkey, h]
  · intro h; simp [upstream_get, hkey, h]
  · intro c h
    have hs : ("upstream_unreachable" : String) = "upstream_http_" ++ toString c := by
      have h2 := congrArg (fun j => jget j "error") h
      simpa [errJson, jget, alookup_cons] using h2
    have hd := congrArg String.data hs
    rw [String.data_append] at hd
    have h9 : ("upstream_unreachable".data)[9]? =
        ("upstream_http_".data ++ (toString c).data)[9]? := by rw [hd]
    rw [List.getElem?_append] at h9
    rw [if_pos (by decide : (9 : Nat) < "upstream_http_".data.length)] at h9
    exact absurd h9 (by decide)
  · rcases hnet : net (upstream_outreq cfg path params) with b | cc | _ <;>
      simp [upstream_get, hkey, hnet]
/-- Witness for C4 at a concrete upstream 404. -/
theorem upstream_get_error_mapping_witness :
    ((fun _ => NetResult.httpError (some 404)) (upstream_outreq ⟨"b", "K", "api_key", "query"⟩ "/t/" []) =
      NetResult.httpError (some 404)) ∧
    upstream_get ⟨"b", "K", "api_key", "query"⟩ (fun _ => NetResult.httpError (some 404)) "/t/" [] =
      (.tup (errJson ("upstream_http_" ++ toString (404 : Nat))) 502, 1) :=
  ⟨rfl, (upstream_get_error_mapping ⟨"b", "K", "api_key", "query"⟩ (fun _ => NetResult.httpError (some 404)) "/t/" []
    (by decide)).1 404 rfl⟩

/-- C6 counterexample: in query mode with the credential parameter name configured as e,
the caller-supplied e parameter is overwritten by the upstream credential, so not every
caller-supplied parameter is preserved. -/
theorem upstream_outreq_query_param_replaced :
    alookup ([("e", "binance")] : List (String × String)) "e" = some "binance" ∧
    alookup (upstream_outreq ⟨"https://api.cryptometer.io", "SECRET", "e", "query"⟩ "/coinlist/"
      [("e", "binance")]).query "e" = some "SECRET" ∧
    some "SECRET" ≠ some "binance" := by
  refine ⟨rfl, ?_, by decide⟩
  rfl

/-- C6 (amended): in query mode the credential is set under the configured parameter
name, every caller-supplied parameter whose name differs from it is preserved, and no
header is added (a caller parameter with the configured name itself is overwritten, per
the counterexample); in bearer mode an authorization header carries the credential and
the caller query parameters pass through unmodified. -/
theorem upstream_outreq_credential_injection (cfg : UpConfig) (path : String) (params : List (String × String)) :
    (pyLower cfg.authMode ≠ "bearer" →
      alookup (upstream_outreq cfg path params).query cfg.keyName = some cfg.key ∧
      (∀ k2, k2 ≠ cfg.keyName → alookup (upstream_outreq cfg path params).query k2 =
        alookup params k2) ∧
      (upstream_outreq cfg path params).headers = []) ∧
    (pyLower cfg.authMode = "bearer" →
      (upstream_outreq cfg path params).query = params ∧
      (upstream_outreq cfg path params).headers = [("Authorization", "Bearer " ++ cfg.key)]) := by
  constructor
  · intro h
    rw [upstream_outreq, if_neg h]
    exact ⟨alookup_dset_self _ _ _, fun k2 h2 => alookup_dset_other _ _ _ _ h2, rfl⟩
  · intro h
    rw [upstream_outreq, if_pos h]
    exact ⟨rfl, rfl⟩

/-- Witness for C6 in query mode with a disjoint caller parameter. -/
theorem upstream_outreq_credential_injection_witness :
    pyLower "query" ≠ "bearer" ∧
    alookup (upstream_outreq ⟨"b", "K", "api_key", "query"⟩ "/t/" [("e", "x")]).query "api_key" =
      some "K" ∧
    alookup (upstream_outreq ⟨"b", "K", "api_key", "query"⟩ "/t/" [("e", "x")]).query "e" =
      some "x" := by
  have h := (upstream_outreq_credential_injection ⟨"b", "K", "api_key", "query"⟩ "/t/" [("e", "x")]).1 (by decide)
  exact ⟨by decide, h.1, (h.2.1 "e" (by decide)).trans rfl⟩

/-- C3: two consecutive valid requests to the cached coinlist route with the same
normalized exchange parameter, issued within one TTL window against a cold key, make
exactly one upstream call, and the second response payload is exactly the payload stored
from the first response. -/
theorem get_coinlist_cache_idempotent (expected : Option String) (req1 req2 : Request) (cfg : UpConfig)
    (net : OutReq → NetResult) (now1 now2 : ℚ) (st0 : St) (e : String) (body : Json)
    (ha1 : require_api_key expected req1 = none)
    (ha2 : require_api_key expected req2 = none)
    (he1 : pyLower (pyStrip ((req1.e).getD "")) = e)
    (he2 : pyLower (pyStrip ((req2.e).getD "")) = e)
    (hne : e ≠ "")
    (hcold : alookup st0.cache ("coinlist:" ++ e) = none)
    (hkey : cfg.key ≠ "")
    (hnet : net (upstream_outreq cfg "/coinlist/" [("e", e)]) = .ok body)
    (htr : jsonTruthy body = true)
    (hsucc : jget body "success" = some (.str "true"))
    (htime : now2 - now1 ≤ CACHE_TTL_SECONDS) :
    get_coinlist expected req1 cfg net now1 st0 =
      ((body, 200), ⟨cache_put st0.cache now1 ("coinlist:" ++ e) body, st0.upCalls + 1⟩) ∧
    get_coinlist expected req2 cfg net now2
        ⟨cache_put st0.cache now1 ("coinlist:" ++ e) body, st0.upCalls + 1⟩ =
      ((body, 200), ⟨cache_put st0.cache now1 ("coinlist:" ++ e) body, st0.upCalls + 1⟩) := by
  constructor
  · rw [get_coinlist, ha1]
    simp only [he1]
    rw [if_neg hne]
    simp only [cache_get, hcold]
    simp only [upstream_get]
    rw [if_neg hkey, hnet]
    simp only [htr, if_pos rfl, if_true]
    rw [hsucc]
    simp [upretToResp]
  · rw [get_coinlist, ha2]
    simp only [he2]
    rw [if_neg hne]
    have hl : alookup (cache_put st0.cache now1 ("coinlist:" ++ e) body) ("coinlist:" ++ e) =
        some (now1, body) := alookup_dset_self _ _ _
    simp only [cache_get, hl]
    rw [if_neg (by simpa using not_lt_of_le htime)]
    simp [htr]

/-- Witness for C3 at a concrete request pair 10 seconds apart. -/
theorem get_coinlist_cache_idempotent_witness :
    pyLower (pyStrip ((some " Binance").getD "")) = "binance" ∧
    get_coinlist (some "K") ⟨some "K", none, some " Binance", none⟩
        ⟨"https://api.cryptometer.io", "UK", "api_key", "query"⟩
        (fun _ => NetResult.ok (Json.obj [("success", Json.str "true")])) 0 ⟨[], 0⟩ =
      ((Json.obj [("success", Json.str "true")], 200),
        ⟨cache_put [] 0 ("coinlist:" ++ "binance") (Json.obj [("success", Json.str "true")]),
          0 + 1⟩) ∧
    get_coinlist (some "K") ⟨some "K", none, some " Binance", none⟩
        ⟨"https://api.cryptometer.io", "UK", "api_key", "query"⟩
        (fun _ => NetResult.ok (Json.obj [("success", Json.str "true")])) 10
        ⟨cache_put [] 0 ("coinlist:" ++ "binance") (Json.obj [("success", Json.str "true")]),
          0 + 1⟩ =
      ((Json.obj [("success", Json.str "true")], 200),
        ⟨cache_put [] 0 ("coinlist:" ++ "binance") (Json.obj [("success", Json.str "true")]),
          0 + 1⟩) := by
  have h := get_coinlist_cache_idempotent (some "K") ⟨some "K", none, some " Binance", none⟩
    ⟨some "K", none, some " Binance", none⟩
    ⟨"https://api.cryptometer.io", "UK", "api_key", "query"⟩
    (fun _ => NetResult.ok (Json.obj [("success", Json.str "true")])) 0 10 ⟨[], 0⟩ "binance"
    (Json.obj [("success", Json.str "true")])
    (by decide) (by decide) (by decide) (by decide) (by decide) rfl (by decide) rfl rfl rfl
    (by norm_num [CACHE_TTL_SECONDS])
  exact ⟨by decide, h.1, h.2⟩

/-- C7 (amended): on the analyze route the text-generation call is never attempted when
the market-data call does not report success; the explicit upstream_failed 502 envelope
is returned exactly when the relay delivered a JSON-body HTTP response whose object body
lacks success equal to the string true, while a missing upstream key, an upstream HTTP
error or an unreachable upstream makes the handler raise an unhandled fault (the failure
tuple has no get_json), still without attempting the second call. -/
theorem analyze_pair_first_call_gates_second (expected : Option String) (req : Request) (cfg : UpConfig)
    (net : OutReq → NetResult) (cfgO : OaiCfg) (aiNet : AiNet) (e mp : String)
    (ha : require_api_key expected req = none)
    (he : pyLower (pyStrip ((req.e).getD "")) = e)
    (hmp : pyUpper (pyStrip ((req.market_pair).getD "")) = mp)
    (hne : e ≠ "") (hnmp : mp ≠ "") :
    (cfg.key = "" → analyze_pair expected req cfg net cfgO aiNet = (.crash, false)) ∧
    (cfg.key ≠ "" →
      net (upstream_outreq cfg "/ticker/" [("e", e), ("market_pair", mp)]) = .netFail →
      analyze_pair expected req cfg net cfgO aiNet = (.crash, false)) ∧
    (∀ c, cfg.key ≠ "" →
      net (upstream_outreq cfg "/ticker/" [("e", e), ("market_pair", mp)]) = .httpError c →
      analyze_pair expected req cfg net cfgO aiNet = (.crash, false)) ∧
    (∀ body ul, cfg.key ≠ "" →
      net (upstream_outreq cfg "/ticker/" [("e", e), ("market_pair", mp)]) = .ok body →
      (if jsonTruthy body then body else Json.obj []) = Json.obj ul →
      alookup ul "success" ≠ some (.str "true") →
      analyze_pair expected req cfg net cfgO aiNet =
        (.ok (Json.obj [("success", .str "false"), ("error", .str "upstream_failed"),
          ("upstream", .obj ul)], 502), false)) ∧
    (∀ body, cfg.key ≠ "" →
      net (upstream_outreq cfg "/ticker/" [("e", e), ("market_pair", mp)]) = .ok body →
      jsonTruthy body = true → (∀ ul, body ≠ Json.obj ul) →
      analyze_pair expected req cfg net cfgO aiNet = (.crash, false)) := by
  refine ⟨?_, ?_, ?_, ?_, ?_⟩
  · intro hk
    rw [analyze_pair, ha]
    simp only [he, hmp]
    rw [if_neg hne, if_neg hnmp]
    simp [upstream_get, hk]
  · intro hk hnet
    rw [analyze_pair, ha]
    simp only [he, hmp]
    rw [if_neg hne, if_neg hnmp]
    simp [upstream_get, hk, hnet]
  · intro c hk hnet
    rw [analyze_pair, ha]
    simp only [he, hmp]
    rw [if_neg hne, if_neg hnmp]
    simp [upstream_get, hk, hnet]
  · intro body ul hk hnet hobj hfail
    rw [analyze_pair, ha]
    simp only [he, hmp]
    rw [if_neg hne, if_neg hnmp]
    rw [upstream_get, if_neg hk, hnet]
    simp only [hobj]
    rcases halu : alookup ul "success" with _ | j
    · simp [halu]
    · rcases j with _ | b | n | s | l | o <;> simp [halu]
      intro hs
      exact absurd (by rw [halu, hs]) hfail
  · intro body hk hnet htr hnobj
    rw [analyze_pair, ha]
    simp only [he, hmp]
    rw [if_neg hne, if_neg hnmp]
    rw [upstream_get, if_neg hk, hnet]
    simp only [htr, if_true]

/-- C7 counterexample: with a network-level relay failure the handler does not return
the explicit error envelope: it crashes on the failure tuple; the second call is still
not attempted. -/
theorem analyze_pair_relay_failure_crashes :
    analyze_pair (some "K") ⟨some "K", none, some "binance", some "btc-usdt"⟩
      ⟨"b", "UK", "api_key", "query"⟩ (fun _ => NetResult.netFail) ⟨"OK", "m", "o"⟩
      AiNet.netFail = (.crash, false) := by
  rfl

/-- Witness for C7 at a concrete 200-with-failure upstream body. -/
theorem analyze_pair_first_call_gates_second_witness :
    alookup [("success", Json.str "false")] "success" ≠ some (Json.str "true") ∧
    analyze_pair (some "K") ⟨some "K", none, some "binance", some "btc-usdt"⟩
      ⟨"b", "UK", "api_key", "query"⟩
      (fun _ => NetResult.ok (Json.obj [("success", Json.str "false")])) ⟨"OK", "m", "o"⟩
      AiNet.netFail =
      (.ok (Json.obj [("success", .str "false"), ("error", .str "upstream_failed"),
        ("upstream", .obj [("success", Json.str "false")])], 502), false) := by
  refine ⟨by intro h; simp [alookup_cons] at h, ?_⟩
  exact (analyze_pair_first_call_gates_second (some "K") ⟨some "K", none, some "binance", some "btc-usdt"⟩
    ⟨"b", "UK", "api_key", "query"⟩
    (fun _ => NetResult.ok (Json.obj [("success", Json.str "false")])) ⟨"OK", "m", "o"⟩
    AiNet.netFail "binance" "BTC-USDT" (by decide) (by decide) (by decide) (by decide)
    (by decide)).2.2.2.1 (Json.obj [("success", Json.str "false")])
    [("success", Json.str "false")] (by decide) rfl rfl
    (by intro h; simp [alookup_cons] at h)

theorem toNat_ofNat_lt {n : Nat} (h : n < 55296) : (Char.ofNat n).toNat = n := by
  have hv : n.isValidChar := Or.inl h
  rw [Char.ofNat, dif_pos hv]
  simp [Char.ofNatAux, Char.toNat, UInt32.toNat]

theorem isWsChar_lowerChar (c : Char) : isWsChar (lowerChar c) = isWsChar c := by
  rw [lowerChar]
  by_cases h : 65 ≤ c.toNat ∧ c.toNat ≤ 90
  · rw [if_pos h]
    rw [isWsChar, isWsChar, toNat_ofNat_lt (by omega)]
    rw [decide_eq_decide]
    omega
  · rw [if_neg h]

theorem upperChar_lowerChar (c : Char) : upperChar (lowerChar c) = upperChar c := by
  rw [lowerChar]
  by_cases h : 65 ≤ c.toNat ∧ c.toNat ≤ 90
  · rw [if_pos h]
    rw [upperChar, upperChar]
    rw [toNat_ofNat_lt (by omega)]
    rw [if_pos (by omega), if_neg (by omega)]
    rw [show c.toNat + 32 - 32 = c.toNat by omega]
    exact Char.ofNat_toNat c
  · rw [if_neg h]

theorem stripList_pad (a u b : List Char)
    (ha : ∀ c ∈ a, isWsChar c = true) (hb : ∀ c ∈ b, isWsChar c = true) :
    stripList (a ++ u ++ b) = stripList u := by
  rw [stripList, stripList]
  rw [List.append_assoc, List.dropWhile_append_of_pos ha]
  rw [List.dropWhile_append]
  by_cases hu : (u.dropWhile isWsChar).isEmpty
  · rw [if_pos hu]
    have hb0 : b.dropWhile isWsChar = [] := List.dropWhile_eq_nil_iff.mpr hb
    have hu0 : u.dropWhile isWsChar = [] := by rwa [List.isEmpty_iff] at hu
    rw [hb0, hu0]
  · rw [if_neg hu]
    rw [List.reverse_append]
    rw [List.dropWhile_append_of_pos (by intro x hx; exact hb x (List.mem_reverse.mp hx))]

theorem stripList_map_lowerChar (l : List Char) :
    stripList (l.map lowerChar) = (stripList l).map lowerChar := by
  have hfun : (isWsChar ∘ lowerChar) = isWsChar := funext isWsChar_lowerChar
  rw [stripList, stripList, List.dropWhile_map, hfun, ← List.map_reverse,
    List.dropWhile_map, hfun, ← List.map_reverse]

theorem norm_eq_of_caseWsEquiv (s t : String) (h : caseWsEquiv s t) :
    pyLower (pyStrip s) = pyLower (pyStrip t) ∧
    pyUpper (pyStrip s) = pyUpper (pyStrip t) := by
  obtain ⟨a, u, b, a2, u2, b2, ha, hb, ha2, hb2, hu, hs, ht⟩ := h
  have hlow : (stripList s.data).map lowerChar = (stripList t.data).map lowerChar := by
    rw [hs, ht, stripList_pad a u b ha hb, stripList_pad a2 u2 b2 ha2 hb2]
    rw [← stripList_map_lowerChar, ← stripList_map_lowerChar, hu]
  constructor
  · show (⟨(stripList s.data).map lowerChar⟩ : String) = ⟨(stripList t.data).map lowerChar⟩
    rw [hlow]
  · show (⟨(stripList s.data).map upperChar⟩ : String) = ⟨(stripList t.data).map upperChar⟩
    have hup : ∀ l : List Char, l.map upperChar = (l.map lowerChar).map upperChar := by
      intro l
      rw [List.map_map]
      exact List.map_congr_left fun c _ => (upperChar_lowerChar c).symm
    rw [hup (stripList s.data), hup (stripList t.data), hlow]

theorem require_api_key_ext (expected : Option String) (r1 r2 : Request)
    (hak : r1.api_key = r2.api_key) (hau : r1.authorization = r2.authorization) :
    require_api_key expected r1 = require_api_key expected r2 := by
  rw [require_api_key, require_api_key, hak, hau]

/-- C10: the ticker handler (and the coinlist handler, hence its cache key) is invariant
under letter-case changes and surrounding whitespace in the caller-supplied e and
market_pair values: the normalized parameters coincide, so the complete handler results,
and with them the outbound upstream calls, coincide. -/
theorem get_ticker_case_ws_invariance (expected : Option String) (k a : Option String) (cfg : UpConfig)
    (net : OutReq → NetResult) (s1 s2 m1 m2 : String)
    (h1 : caseWsEquiv s1 s2) (h2 : caseWsEquiv m1 m2) :
    pyLower (pyStrip s1) = pyLower (pyStrip s2) ∧
    pyUpper (pyStrip m1) = pyUpper (pyStrip m2) ∧
    get_ticker expected ⟨k, a, some s1, some m1⟩ cfg net =
      get_ticker expected ⟨k, a, some s2, some m2⟩ cfg net ∧
    (∀ now st, get_coinlist expected ⟨k, a, some s1, some m1⟩ cfg net now st =
      get_coinlist expected ⟨k, a, some s2, some m2⟩ cfg net now st) := by
  have he := (norm_eq_of_caseWsEquiv s1 s2 h1).1
  have hm := (norm_eq_of_caseWsEquiv m1 m2 h2).2
  have hreq : require_api_key expected ⟨k, a, some s1, some m1⟩ =
      require_api_key expected ⟨k, a, some s2, some m2⟩ :=
    require_api_key_ext expected _ _ rfl rfl
  refine ⟨he, hm, ?_, ?_⟩
  · rw [get_ticker, get_ticker, hreq]
    have he' : pyLower (pyStrip (((⟨k, a, some s1, some m1⟩ : Request).e).getD "")) =
        pyLower (pyStrip (((⟨k, a, some s2, some m2⟩ : Request).e).getD "")) := he
    have hm' : pyUpper (pyStrip (((⟨k, a, some s1, some m1⟩ : Request).market_pair).getD "")) =
        pyUpper (pyStrip (((⟨k, a, some s2, some m2⟩ : Request).market_pair).getD "")) := hm
    rw [he', hm']
  · intro now st
    rw [get_coinlist, get_coinlist, hreq]
    have he' : pyLower (pyStrip (((⟨k, a, some s1, some m1⟩ : Request).e).getD "")) =
        pyLower (pyStrip (((⟨k, a, some s2, some m2⟩ : Request).e).getD "")) := he
    rw [he']

/-- Witness for C10 at concrete case and whitespace variants. -/
theorem get_ticker_case_ws_invariance_witness :
    caseWsEquiv " Binance" "BINANCE" ∧ caseWsEquiv "btc-usdt " "Btc-Usdt" ∧
    pyLower (pyStrip " Binance") = pyLower (pyStrip "BINANCE") ∧
    pyUpper (pyStrip "btc-usdt ") = pyUpper (pyStrip "Btc-Usdt") ∧
    get_ticker (some "K") ⟨some "K", none, some " Binance", some "btc-usdt "⟩
        ⟨"b", "UK", "api_key", "query"⟩ (fun _ => NetResult.netFail) =
      get_ticker (some "K") ⟨some "K", none, some "BINANCE", some "Btc-Usdt"⟩
        ⟨"b", "UK", "api_key", "query"⟩ (fun _ => NetResult.netFail) := by
  have hc1 : caseWsEquiv " Binance" "BINANCE" :=
    ⟨[' '], "Binance".data, [], [], "BINANCE".data, [],
      by decide, by decide, by decide, by decide, by decide, by decide, by decide⟩
  have hc2 : caseWsEquiv "btc-usdt " "Btc-Usdt" :=
    ⟨[], "btc-usdt".data, [' '], [], "Btc-Usdt".data, [],
      by decide, by decide, by decide, by decide, by decide, by decide, by decide⟩
  have h := get_ticker_case_ws_invariance (some "K") (some "K") none ⟨"b", "UK", "api_key", "query"⟩
    (fun _ => NetResult.netFail) " Binance" "BINANCE" "btc-usdt " "Btc-Usdt" hc1 hc2
  exact ⟨hc1, hc2, h.1, h.2.1, h.2.2.1⟩

/-- C1: if the expected inbound credential is unconfigured (environment value absent or
empty), the key validator fails every request with HTTP 500 and the misconfiguration
reason (source literal for the spec reason of a misconfigured server), regardless of any
credential the caller supplied in query or header. -/
theorem require_api_key_unconfigured_500 (expected : Option String) (req : Request)
    (h : expected = none ∨ expected = some "") :
    require_api_key expected req = some ("server_missing_api_key_env", 500) := by
  rcases h with h | h <;> subst h <;> rfl

/-- Witness for C1 at a concrete empty configuration and a request that supplies a
credential in both locations. -/
theorem require_api_key_unconfigured_500_witness :
    (some "" = (none : Option String) ∨ some "" = some "") ∧
    require_api_key (some "") ⟨some "topsecret", some "Bearer topsecret", none, none⟩ =
      some ("server_missing_api_key_env", 500) :=
  ⟨Or.inr rfl, require_api_key_unconfigured_500 _ _ (Or.inr rfl)⟩

/-- C5: with a configured expected credential, a request carrying neither a non-empty
api_key query parameter nor a Bearer authorization header fails with 401 and the
missing-credential reason, which is distinct from the invalid-credential reason returned
when a supplied candidate does not match. -/
theorem require_api_key_credential_missing (k : String) (req : Request)
    (hk : k ≠ "")
    (hq : req.api_key = none ∨ req.api_key = some "")
    (hh : bearerPrefixed ((req.authorization).getD "") = false) :
    require_api_key (some k) req = some ("api_key is missing", 401) ∧
    (∀ s, s ≠ "" → s ≠ k →
      require_api_key (some k) { req with api_key := some s } =
        some ("api_key is missing or invalid", 401)) ∧
    "api_key is missing" ≠ "api_key is missing or invalid" := by
  refine ⟨?_, ?_, by decide⟩
  · rcases hq with hq | hq <;> simp [require_api_key, strTruthy, hq, hh, hk]
  · intro s hs hsk
    simp [require_api_key, strTruthy, hs, hsk, hk]

/-- C9: an api_key query parameter equal to the empty string is treated as absent: the
validator falls through to the authorization header, failing with the missing-credential
reason (never the invalid one) when no Bearer header is present, and accepting a valid
Bearer credential. -/
theorem require_api_key_empty_query_falls_through (k : String) (req : Request)
    (hk : k ≠ "") (hq : req.api_key = some "") :
    (bearerPrefixed ((req.authorization).getD "") = false →
      require_api_key (some k) req = some ("api_key is missing", 401)) ∧
    (req.authorization = some ("Bearer " ++ k) →
      require_api_key (some k) req = none) := by
  constructor
  · intro hh
    simp [require_api_key, strTruthy, hq, hh, hk]
  · intro hh
    have hpre : bearerPrefixed ("Bearer " ++ k) = true := by
      rw [bearerPrefixed, List.isPrefixOf_iff_prefix]
      rw [String.data_append]
      exact List.prefix_append _ _
    have hdrop : (("Bearer " ++ k).data.drop 7) = k.data := by
      rw [String.data_append]
      have : ("Bearer ".data).length = 7 := by decide
      rw [← this, List.drop_left]
    simp [require_api_key, strTruthy, hq, hh, hpre, hdrop, hk]

/-- Witness for C5 at a bare request and at a wrong-credential request. -/
theorem require_api_key_credential_missing_witness :
    ("K" : String) ≠ "" ∧
    require_api_key (some "K") ⟨none, none, none, none⟩ = some ("api_key is missing", 401) ∧
    require_api_key (some "K") ⟨some "bad", none, none, none⟩ =
      some ("api_key is missing or invalid", 401) := by
  have h := require_api_key_credential_missing "K" ⟨none, none, none, none⟩ (by decide)
    (Or.inl rfl) (by decide)
  exact ⟨by decide, h.1, h.2.1 "bad" (by decide) (by decide)⟩

/-- Witness for C9 with an empty query credential, without and with a Bearer header. -/
theorem require_api_key_empty_query_falls_through_witness :
    ("K" : String) ≠ "" ∧
    require_api_key (some "K") ⟨some "", none, none, none⟩ = some ("api_key is missing", 401) ∧
    require_api_key (some "K") ⟨some "", some ("Bearer " ++ "K"), none, none⟩ = none := by
  have h1 := require_api_key_empty_query_falls_through "K" ⟨some "", none, none, none⟩
    (by decide) rfl
  have h2 := require_api_key_empty_query_falls_through "K"
    ⟨some "", some ("Bearer " ++ "K"), none, none⟩ (by decide) rfl
  exact ⟨by decide, h1.1 (by decide), h2.2 rfl⟩
